import Mathlib

/-!
Verification development for the MoneyBoard cash-flow dashboard core
(`src/app.py`).

Shallow embedding conventions:
* A pandas `DataFrame` of ledger rows is a `List Transaction`.
* Calendar dates are day numbers (`Int`); `timedelta(days = k)` is
  subtraction of `k`.
* Python `int` is `Int` (unbounded, as in Python); the float literal
  `0.1` and float division in `generate_insights` are modelled as exact
  rational arithmetic over `ℚ` (the sign and zero tests the code performs
  on these values agree with the exact rational values for the integer
  inputs involved).
* `df.sort_values("date")` uses pandas' default `kind='quicksort'`,
  which documents only a date-ascending permutation; stability is
  documented for `kind='mergesort'`/`'stable'` only. Its contract is
  therefore the relation `SortedByDateOf` (ascending permutation, tie
  order unspecified); the executable `sortByDate` realizes one
  admissible tie order and no theorem relies on which one it picks.
* Insight/advice lines are an inductive `Line` carrying the numeric and
  textual payloads of the corresponding Python f-strings.
* The wall-clock `date.today()` of `generate_insights` is an explicit
  `today` parameter.
-/

namespace MoneyBoard

/-- A ledger row: the five persisted fields of `src/app.py`
(`date,description,category,type,amount`). -/
structure Transaction where
  date : Int
  description : String
  category : String
  type : String
  amount : Int
deriving DecidableEq, Repr

/-- Signed amount of a row as used by `cumulative_balance`
(`app.py` line 86): `r["amount"] if r["type"]=="Masuk" else -r["amount"]`. -/
def signedAmount (t : Transaction) : Int :=
  if t.type = "Masuk" then t.amount else -t.amount

/-- Stable insertion of a row into a date-sorted list: the new row goes
in front of the first row whose date is ≥ its own. -/
def insertByDate (t : Transaction) : List Transaction → List Transaction
  | [] => [t]
  | u :: us => if t.date ≤ u.date then t :: u :: us else u :: insertByDate t us

/-- One admissible implementation of `df.sort_values("date")` (`app.py`
line 85): an insertion sort producing a date-ascending permutation.
Pandas' default `kind='quicksort'` documents only the ascending order,
not the tie order among equal dates, so theorems rely only on the
documented contract `SortedByDateOf` or on tie-order-invariant
conclusions, never on the tie order this executable model happens to
produce. -/
def sortByDate (l : List Transaction) : List Transaction :=
  l.foldr insertByDate []

/-- The documented postcondition of `df.sort_values("date")` with the
default `kind='quicksort'` (`app.py` line 85): the output is a
permutation of the input, ascending in `date`. Pandas documents
stability only for `kind='mergesort'`/`'stable'`, so the tie order
among same-date rows is unspecified — every date-ascending permutation
is an admissible output. -/
def SortedByDateOf (s l : List Transaction) : Prop :=
  List.Perm s l ∧ List.Pairwise (fun a b => a.date ≤ b.date) s

/-- Running-balance rows: pairs each row (in the given order) with the
cumulative signed sum up to and including it, starting from `acc`. -/
def balanceRows (acc : Int) : List Transaction → List (Transaction × Int)
  | [] => []
  | t :: ts => (t, acc + signedAmount t) :: balanceRows (acc + signedAmount t) ts

/-- Model of `cumulative_balance` (`app.py` lines 84-88): sort by date, attach the
signed amount's cumulative sum as the `balance` column. -/
def cumulative_balance (l : List Transaction) : List (Transaction × Int) :=
  balanceRows 0 (sortByDate l)

/-- Total of amounts of rows with the given `type`
(`df.loc[df["type"]==ty,"amount"].sum()`). -/
def totalOfType (ty : String) (l : List Transaction) : Int :=
  ((l.filter (fun t => t.type == ty)).map (fun t => t.amount)).sum

/-- Model of `compute_summary` (`app.py` lines 78-82): returns
`(total_masuk, total_keluar, saldo)` with `saldo = total_masuk - total_keluar`. -/
def compute_summary (l : List Transaction) : Int × Int × Int :=
  (totalOfType "Masuk" l, totalOfType "Keluar" l,
   totalOfType "Masuk" l - totalOfType "Keluar" l)

/-- Direction word of the trend comparison line
(`"naik"` / `"turun"` / `"stabil"`, `app.py` line 118). -/
inductive TrendDir where
  | up
  | down
  | stable
deriving DecidableEq, Repr

/-- The textual lines produced by `generate_insights`
(`app.py` lines 93-151), one constructor per f-string, carrying the
interpolated values. -/
inductive Line where
  /-- Text "Belum ada data transaksi untuk dianalisis." (line 97) -/
  | noData
  /-- Text "Total pemasukan ... Total pengeluaran ... Saldo akhir ..." (line 99) -/
  | summary (totIn totOut saldo : Int)
  /-- Text "Arus kas bersih dalam ... hari terakhir ... Tidak ada data periode
  sebelumnya untuk perbandingan." (line 115) -/
  | trendNoComparison (recent : Int)
  /-- Text "Perbandingan arus kas bersih ... : {sign} ({pct}% perubahan)." (line 119) -/
  | trendComparison (dir : TrendDir) (pct : ℚ)
  /-- Text "Kategori pengeluaran terbesar: {name} (Rp {val})." (line 127) -/
  | topCategory (name : String) (total : Int)
  /-- Text "Belum ada pengeluaran tercatat." (line 129) -/
  | noOutflow
  /-- Text "Saldo negatif: lakukan pengurangan pengeluaran ..." (line 134) -/
  | warnNegative
  /-- Text "Saldo rendah relatif terhadap total pemasukan. ..." (line 136) -/
  | lowBuffer
  /-- Text "Saldo sehat sejauh ini. ..." (line 138) -/
  | healthy
  /-- Text "Banyak pengeluaran kecil (< Rp50.000). ..." (line 143) -/
  | consolidateSmall
  /-- Text "Buat anggaran per kategori dan batasi kategori terbesar." (line 147) -/
  | actBudget
  /-- Text "Eksport data setiap bulan untuk backup." (line 148) -/
  | actExport
  /-- Text "Aktifkan notifikasi saat saldo di bawah threshold (fitur lanjutan)." (line 149) -/
  | actAlert
deriving DecidableEq, Repr

/-- One masked-and-typed amount sum of the trend computation
(`df.loc[mask, "amount"].where(df["type"]==ty, 0).sum()`,
`app.py` lines 111-112): amount when the row's date is inside `[lo, hi]`
and its type is `ty`, otherwise 0. -/
def sumWhereType (lo hi : Int) (ty : String) (l : List Transaction) : Int :=
  (l.map (fun t => if lo ≤ t.date ∧ t.date ≤ hi ∧ t.type = ty then t.amount else 0)).sum

/-- Net cash flow of a date window as the code computes it: the "Masuk"
sum minus the "Keluar" sum over the window mask (`app.py` lines 111-112). -/
def netWhere (lo hi : Int) (l : List Transaction) : Int :=
  sumWhereType lo hi "Masuk" l - sumWhereType lo hi "Keluar" l

/-- Net cash flow of the window `[lo, hi]` phrased directly: filter to the
window, sum signed contributions (+amount for `Masuk`, -amount for
`Keluar`, 0 for any other type — other types contribute nothing in the
code's two one-sided sums). -/
def windowNet (lo hi : Int) (l : List Transaction) : Int :=
  ((l.filter (fun t => decide (lo ≤ t.date) && decide (t.date ≤ hi))).map
    (fun t => if t.type = "Masuk" then t.amount
              else if t.type = "Keluar" then -t.amount else 0)).sum

/-- Percent change of the trend line (`app.py` line 117):
`(recent - prev) / abs(prev) * 100`, in exact rational arithmetic. -/
def pctChange (recent prev : Int) : ℚ :=
  ((recent : ℚ) - (prev : ℚ)) / |(prev : ℚ)| * 100

/-- Direction classification of the trend line (`app.py` line 118):
`"naik" if pct>0 else "turun" if pct<0 else "stabil"`. -/
def classifyPct (pct : ℚ) : TrendDir :=
  if 0 < pct then TrendDir.up else if pct < 0 then TrendDir.down else TrendDir.stable

/-- The trend-comparison insight line of `generate_insights`
(`app.py` lines 101-119), with `date.today()` passed explicitly:
`start_recent = today - (days_window-1)`, `start_prev = start_recent -
days_window`, `end_prev = start_recent - 1`; if the previous window's net
is 0 the no-comparison line is emitted, otherwise the percent-change line. -/
def trendInsight (today w : Int) (l : List Transaction) : Line :=
  let start_recent := today - (w - 1)
  let end_recent := today
  let start_prev := start_recent - w
  let end_prev := start_recent - 1
  let recent_sum := netWhere start_recent end_recent l
  let prev_sum := netWhere start_prev end_prev l
  if prev_sum = 0 then
    Line.trendNoComparison recent_sum
  else
    Line.trendComparison (classifyPct (pctChange recent_sum prev_sum))
      (pctChange recent_sum prev_sum)

/-- Modelled from the claim's words (windows `[today - 2*window, today -
window - 1]` for the preceding period), for comparison against the
code's `trendInsight`. -/
def trendInsightSpecC1 (today w : Int) (l : List Transaction) : Line :=
  let recent_sum := windowNet (today - (w - 1)) today l
  let prev_sum := windowNet (today - 2 * w) (today - w - 1) l
  if prev_sum = 0 then
    Line.trendNoComparison recent_sum
  else
    Line.trendComparison (classifyPct (pctChange recent_sum prev_sum))
      (pctChange recent_sum prev_sum)

/-- Per-category outflow totals (`out_df.groupby("category").amount.sum()`,
`app.py` line 124), keys in first-occurrence order. -/
def catTotals (l : List Transaction) : List (String × Int) :=
  l.foldl (fun acc t =>
    if acc.any (fun p => p.1 == t.category) then
      acc.map (fun p => if p.1 == t.category then (p.1, p.2 + t.amount) else p)
    else acc ++ [(t.category, t.amount)]) []

/-- The category entry with the largest total (`sort_values(ascending=
False)` then `index[0]` / `iloc[0]`, `app.py` lines 124-126). Pandas does
not pin the tie order among equal totals; this model keeps the earliest
key, which the claims never exercise. -/
def bestCat : List (String × Int) → Option (String × Int)
  | [] => none
  | p :: ps => some (ps.foldl (fun b q => if b.2 < q.2 then q else b) p)

/-- The top-spending-category insight line (`app.py` lines 122-129). -/
def topCatLine (outs : List Transaction) : Line :=
  match bestCat (catTotals outs) with
  | some p => Line.topCategory p.1 p.2
  | none => Line.noOutflow

/-- The three fixed suggested-action lines (`app.py` lines 146-150). -/
def fixedActions : List Line :=
  [Line.actBudget, Line.actExport, Line.actAlert]

/-- Model of `generate_insights` (`app.py` lines 93-151) with `date.today()` passed
explicitly: returns the pair `(insights, advice + actions)`; on an empty
frame it returns `(["Belum ada data..."], [])` (line 97). -/
def generate_insights (today w : Int) (l : List Transaction) : List Line × List Line :=
  if l = [] then ([Line.noData], [])
  else
    let tot_in := totalOfType "Masuk" l
    let tot_out := totalOfType "Keluar" l
    let saldo := tot_in - tot_out
    let out_df := l.filter (fun t => t.type == "Keluar")
    let insights := [Line.summary tot_in tot_out saldo, trendInsight today w l,
      topCatLine out_df]
    let advice :=
      (if saldo < 0 then [Line.warnNegative]
       else if (saldo : ℚ) < (tot_in : ℚ) * (1 / 10) then [Line.lowBuffer]
       else [Line.healthy]) ++
      (if 5 < (out_df.filter (fun t => t.amount < 50000)).length
       then [Line.consolidateSmall] else [])
    (insights, advice ++ fixedActions)

/-- An `amount` cell of the persisted CSV as seen by `pd.to_numeric(...,
errors="coerce")`: either a numeric value or a non-numeric string. -/
inductive RawAmount where
  | num (q : ℚ)
  | nonNumeric
deriving DecidableEq, Repr

/-- Truncation toward zero of a rational, as `astype(int)` performs on a
float value. -/
def ratTrunc (q : ℚ) : Int :=
  q.num.tdiv (q.den : Int)

/-- The amount pipeline of `load_data` (`app.py` line 58):
`pd.to_numeric(df["amount"], errors="coerce").fillna(0).astype(int)` —
non-numeric cells become `NaN`, are filled with 0 and the column is cast
to integer. -/
def coerceAmount : RawAmount → Int
  | RawAmount.num q => ratTrunc q
  | RawAmount.nonNumeric => 0

/-- A parsed row of the persisted store with a parseable date column and a
raw `amount` cell, as `pd.read_csv` delivers it to the normalization step
of `load_data`. -/
structure RawStoredRow where
  date : Int
  description : String
  category : String
  type : String
  amount : RawAmount
deriving DecidableEq, Repr

/-- The normalization step of `load_data` (`app.py` lines 51-61) on a
store that parses as tabular data with parseable dates: dates are kept as
calendar dates and each amount runs through `coerceAmount`. -/
def load_data (rows : List RawStoredRow) : List Transaction :=
  rows.map (fun r => ⟨r.date, r.description, r.category, r.type, coerceAmount r.amount⟩)

/-- The error taxonomy of the delete handler; `indexOutOfRange` is the
spec's `IndexOutOfRangeError`. The source handler (`app.py` lines
286-290) has no raising path at all, so the embedded handler never
returns it. -/
inductive DeleteError where
  | indexOutOfRange
deriving DecidableEq, Repr

/-- Model of `df.reset_index()` (`app.py` line 284): pair each row with its
positional index counting from `i`. -/
def idxFrom (i : Nat) : List Transaction → List (Nat × Transaction)
  | [] => []
  | t :: ts => (i, t) :: idxFrom (i + 1) ts

/-- The delete-button handler of the "Tabel Transaksi" page (`app.py`
lines 286-290): keep every row whose `csv_index` differs from the
selected index (`df_display[df_display["csv_index"] != sel_index]`),
drop the index column, save. The handler always succeeds. -/
def deleteHandler (l : List Transaction) (sel : Int) : Except DeleteError (List Transaction) :=
  Except.ok (((idxFrom 0 l).filter (fun p => !((p.1 : Int) == sel))).map (fun p => p.2))

/-- The error taxonomy of the import handler: `dateKeyError` is the
generic `except Exception` message produced when `incoming["date"]`
raises (`app.py` lines 336, 346-347); `schemaError` is the explicit
"File tidak sesuai..." message (line 339), the spec's
`SchemaValidationError`. -/
inductive ImportError where
  | dateKeyError
  | schemaError
deriving DecidableEq, Repr

/-- A row of an uploaded CSV/XLSX file: the five typed fields (with a
parseable date) plus any extra columns' cells. -/
structure RawImportRow where
  date : Int
  description : String
  category : String
  type : String
  amount : RawAmount
  extras : List (String × String)
deriving DecidableEq, Repr

/-- An uploaded file parsed by `pd.read_csv` / `pd.read_excel`: its column
names and its rows. -/
structure RawTable where
  cols : List String
  rows : List RawImportRow
deriving DecidableEq, Repr

/-- The required column set of the import handler (`app.py` line 337). -/
def requiredCols : List String :=
  ["date", "description", "category", "type", "amount"]

/-- Parse one uploaded row into a ledger row: keep the five required
fields (dropping extra columns) and coerce the amount as the handler's
`pd.to_numeric(...).fillna(0).astype(int)` does (`app.py` lines 341-342). -/
def parseImportRow (r : RawImportRow) : Transaction :=
  ⟨r.date, r.description, r.category, r.type, coerceAmount r.amount⟩

/-- The upload handler of the "Impor/Ekspor" page (`app.py` lines
329-347): first `incoming["date"] = pd.to_datetime(incoming["date"])...`
(raising the generic import error when there is no `date` column), then
the `required.issubset(columns)` check (schema error when it fails), and
only then the merge `pd.concat([df, incoming[list(required)]])` with the
amount coercion. -/
def importUpload (df : List Transaction) (t : RawTable) :
    Except ImportError (List Transaction) :=
  if "date" ∈ t.cols then
    if requiredCols.all (fun c => c ∈ t.cols) then
      Except.ok (df ++ t.rows.map parseImportRow)
    else
      Except.error ImportError.schemaError
  else
    Except.error ImportError.dateKeyError

/-- The store after the upload handler runs: the merged frame is saved on
success (`app.py` line 343); on either error branch nothing is saved and
the prior store stands. -/
def importAndSave (df : List Transaction) (t : RawTable) : List Transaction :=
  match importUpload df t with
  | Except.ok newDf => newDf
  | Except.error _ => df

/-- Model of `to_excel_bytes` (`app.py` lines 69-73): serializes the in-app frame —
whose columns are the five canonical ones in order — into a single-sheet
spreadsheet; each ledger row becomes a raw row with a numeric amount cell
and no extra columns. -/
def to_excel_bytes (df : List Transaction) : RawTable :=
  ⟨requiredCols,
   df.map (fun t => ⟨t.date, t.description, t.category, t.type,
     RawAmount.num (t.amount : ℚ), []⟩)⟩

/-- An uploaded table with one additional (non-required) column appended:
every row carries one more cell. Used to state that import drops extras. -/
def withExtraCol (t : RawTable) (c v : String) : RawTable :=
  ⟨t.cols ++ [c], t.rows.map (fun r => { r with extras := r.extras ++ [(c, v)] })⟩

/-- Six outflow rows each below 50000, a concrete input for the
small-expense threshold rule. -/
def smallSixList : List Transaction :=
  [⟨1, "s1", "k", "Keluar", 10000⟩, ⟨2, "s2", "k", "Keluar", 10000⟩,
   ⟨3, "s3", "k", "Keluar", 10000⟩, ⟨4, "s4", "k", "Keluar", 10000⟩,
   ⟨5, "s5", "k", "Keluar", 10000⟩, ⟨6, "s6", "k", "Keluar", 10000⟩]

/-- A two-row ledger (one inflow, one outflow), a concrete input for the
aggregation-consistency check. -/
def balTwoList : List Transaction :=
  [⟨1, "a", "p", "Masuk", 100⟩, ⟨2, "b", "q", "Keluar", 30⟩]

deriving instance DecidableEq for Except

/-! ### Helper lemmas -/

theorem insertByDate_perm (t : Transaction) :
    ∀ l : List Transaction, List.Perm (insertByDate t l) (t :: l)
  | [] => List.Perm.refl _
  | u :: us => by
    simp only [insertByDate]
    split
    · exact List.Perm.refl _
    · exact ((insertByDate_perm t us).cons u).trans (List.Perm.swap t u us)

theorem sortByDate_perm : ∀ l : List Transaction, List.Perm (sortByDate l) l
  | [] => List.Perm.refl _
  | t :: ts => by
    simp only [sortByDate, List.foldr_cons]
    exact (insertByDate_perm t _).trans ((sortByDate_perm ts).cons t)

theorem insertByDate_sorted (t : Transaction) :
    ∀ l : List Transaction, List.Pairwise (fun a b => a.date ≤ b.date) l →
      List.Pairwise (fun a b => a.date ≤ b.date) (insertByDate t l)
  | [], _ => by simp [insertByDate]
  | u :: us, h => by
    rcases List.pairwise_cons.mp h with ⟨hu, hus⟩
    simp only [insertByDate]
    split
    case isTrue hle =>
      refine List.pairwise_cons.mpr ⟨?_, h⟩
      intro v hv
      rcases List.mem_cons.mp hv with rfl | hv
      · exact hle
      · exact le_trans hle (hu v hv)
    case isFalse hgt =>
      refine List.pairwise_cons.mpr ⟨?_, insertByDate_sorted t us hus⟩
      intro v hv
      rcases List.mem_cons.mp ((insertByDate_perm t us).mem_iff.mp hv) with rfl | hv
      · omega
      · exact hu v hv

theorem sortByDate_sorted :
    ∀ l : List Transaction,
      List.Pairwise (fun a b => a.date ≤ b.date) (sortByDate l)
  | [] => List.Pairwise.nil
  | t :: ts => by
    simp only [sortByDate, List.foldr_cons]
    exact insertByDate_sorted t _ (sortByDate_sorted ts)

theorem perm_pair_cases {α : Type} {a b x y : α} (h : List.Perm [a, b] [x, y]) :
    (a = x ∧ b = y) ∨ (a = y ∧ b = x) := by
  have ha : a ∈ [x, y] := h.mem_iff.mp (List.mem_cons_self a [b])
  rcases List.mem_cons.mp ha with h1 | h1
  · left
    refine ⟨h1, ?_⟩
    rw [h1] at h
    have h3 := List.perm_singleton.mp h.cons_inv
    simpa using h3
  · have h1' : a = y := by simpa using h1
    right
    refine ⟨h1', ?_⟩
    rw [h1'] at h
    have hsw : List.Perm [x, y] [y, x] := List.Perm.swap y x []
    have h3 := List.perm_singleton.mp ((h.trans hsw).cons_inv)
    simpa using h3

theorem balanceRows_map_fst (a : Int) :
    ∀ l : List Transaction, (balanceRows a l).map Prod.fst = l
  | [] => rfl
  | t :: ts => by
    simp only [balanceRows, List.map_cons, balanceRows_map_fst (a + signedAmount t) ts]

theorem balanceRows_chain :
    ∀ (l : List Transaction) (a : Int),
      List.Chain' (fun p q => q.2 = p.2 + signedAmount q.1) (balanceRows a l)
  | [], _ => by simp [balanceRows]
  | [t], _ => by simp [balanceRows]
  | t :: t' :: ts, a => by
    have ih := balanceRows_chain (t' :: ts) (a + signedAmount t)
    simp only [balanceRows] at ih ⊢
    exact List.chain'_cons.mpr ⟨rfl, ih⟩

theorem balanceRows_getLast_snd :
    ∀ (l : List Transaction) (a : Int), l ≠ [] →
      ((balanceRows a l).map Prod.snd).getLast? = some (a + (l.map signedAmount).sum)
  | [], _, h => absurd rfl h
  | [t], a, _ => by simp [balanceRows]
  | t :: t' :: ts, a, _ => by
    have ih := balanceRows_getLast_snd (t' :: ts) (a + signedAmount t) (by simp)
    simp only [balanceRows, List.map_cons] at ih ⊢
    rw [List.getLast?_cons_cons, ih]
    simp only [List.sum_cons]
    congr 1
    ring

theorem totalOfType_cons (ty : String) (t : Transaction) (ts : List Transaction) :
    totalOfType ty (t :: ts) =
      (if t.type = ty then t.amount else 0) + totalOfType ty ts := by
  by_cases h : t.type = ty <;> simp [totalOfType, List.filter_cons, h]

theorem sum_signed_eq (l : List Transaction)
    (htypes : ∀ t ∈ l, t.type = "Masuk" ∨ t.type = "Keluar") :
    (l.map signedAmount).sum = totalOfType "Masuk" l - totalOfType "Keluar" l := by
  induction l with
  | nil => simp [totalOfType]
  | cons t ts ih =>
    have ht := htypes t (List.mem_cons_self t ts)
    have hts : ∀ u ∈ ts, u.type = "Masuk" ∨ u.type = "Keluar" :=
      fun u hu => htypes u (List.mem_cons_of_mem t hu)
    have ihts := ih hts
    simp only [List.map_cons, List.sum_cons, ihts, totalOfType_cons, signedAmount]
    rcases ht with h | h
    · have : ¬ ("Masuk" = "Keluar") := by decide
      simp only [h, if_neg this, eq_self_iff_true, if_true]
      ring
    · have hne : ¬ ("Keluar" = "Masuk") := by decide
      simp only [h, if_neg hne, eq_self_iff_true, if_true]
      ring

theorem windowNet_eq_netWhere (lo hi : Int) :
    ∀ l : List Transaction, windowNet lo hi l = netWhere lo hi l
  | [] => rfl
  | t :: ts => by
    have ih := windowNet_eq_netWhere lo hi ts
    simp only [windowNet, netWhere, sumWhereType] at ih ⊢
    by_cases h1 : lo ≤ t.date
    · by_cases h2 : t.date ≤ hi
      · by_cases hm : t.type = "Masuk"
        · have hk : ¬ t.type = "Keluar" := by rw [hm]; decide
          simp [List.filter_cons, h1, h2, hm, hk]
          omega
        · by_cases hk : t.type = "Keluar"
          · simp [List.filter_cons, h1, h2, hm, hk]
            omega
          · simp [List.filter_cons, h1, h2, hm, hk]
            omega
      · simp [List.filter_cons, h1, h2]
        omega
    · simp [List.filter_cons, h1]
      omega

theorem idxFrom_filter_out (sel : Int) :
    ∀ (l : List Transaction) (i : Nat), (sel < (i : Int) ∨ (i : Int) + l.length ≤ sel) →
      ((idxFrom i l).filter (fun p => !((p.1 : Int) == sel))).map Prod.snd = l
  | [], _, _ => rfl
  | t :: ts, i, h => by
    have hlen : ((t :: ts).length : Int) = (ts.length : Int) + 1 := by
      simp [List.length_cons]
    have hne : ¬ ((i : Int) = sel) := by omega
    have hrec : sel < ((i + 1 : Nat) : Int) ∨ ((i + 1 : Nat) : Int) + ts.length ≤ sel := by
      rcases h with h | h
      · left; push_cast; omega
      · right; rw [hlen] at h; push_cast; omega
    have ih := idxFrom_filter_out sel ts (i + 1) hrec
    simp [idxFrom, List.filter_cons, hne, ih]

theorem ratTrunc_intCast (n : Int) : ratTrunc ((n : ℚ)) = n := by
  simp [ratTrunc, Rat.num_intCast, Rat.den_intCast]

theorem parseImportRow_export (t : Transaction) (e : List (String × String)) :
    parseImportRow ⟨t.date, t.description, t.category, t.type,
      RawAmount.num ((t.amount : ℚ)), e⟩ = t := by
  simp [parseImportRow, coerceAmount, ratTrunc_intCast]

theorem roundTripRows :
    ∀ T : List Transaction, ((to_excel_bytes T).rows).map parseImportRow = T
  | [] => rfl
  | t :: ts => by
    have ih := roundTripRows ts
    simp only [to_excel_bytes, List.map_cons] at ih ⊢
    rw [parseImportRow_export t [], ih]

theorem roundTripRowsExtra (c v : String) :
    ∀ T : List Transaction,
      (((withExtraCol (to_excel_bytes T) c v).rows).map parseImportRow) = T
  | [] => rfl
  | t :: ts => by
    have ih := roundTripRowsExtra c v ts
    simp only [withExtraCol, to_excel_bytes, List.map_cons] at ih ⊢
    rw [ih]
    simp [parseImportRow, coerceAmount, ratTrunc_intCast]

/-! ### Claim theorems -/

/-- Claim C1, counterexample: the claim places the preceding window at
`[today - 2*window, today - window - 1]`, but the code's preceding window
is `[today - 2*window + 1, today - window]`. A single inflow of 100 on
day `today - window` lies in the code's preceding window but in neither
of the claim's windows, so the code emits a "-100% down" comparison line
while the claim's formula emits the no-comparison line. -/
theorem trend_window_cex :
    trendInsight 100 30 [⟨70, "x", "c", "Masuk", 100⟩]
      ≠ trendInsightSpecC1 100 30 [⟨70, "x", "c", "Masuk", 100⟩] := by
  decide

/-- Claim C1 (amended): the recent window is `[today - (window-1), today]`
and the immediately preceding window of equal length is
`[today - (2*window - 1), today - window]`; if the preceding window's net
cash flow is exactly zero the emitted line states the recent net flow
with no comparison, otherwise the line carries percent change
`(recent - previous) / |previous| * 100`, classified as up if positive,
down if negative, stable if exactly zero. -/
theorem trend_insight_amended (today w : Int) (l : List Transaction) :
    trendInsight today w l =
      if windowNet (today - (2 * w - 1)) (today - w) l = 0 then
        Line.trendNoComparison (windowNet (today - (w - 1)) today l)
      else
        Line.trendComparison
          (classifyPct (pctChange (windowNet (today - (w - 1)) today l)
            (windowNet (today - (2 * w - 1)) (today - w) l)))
          (pctChange (windowNet (today - (w - 1)) today l)
            (windowNet (today - (2 * w - 1)) (today - w) l)) := by
  have h1 : today - (w - 1) - w = today - (2 * w - 1) := by ring
  have h2 : today - (w - 1) - 1 = today - w := by ring
  simp only [trendInsight, windowNet_eq_netWhere, h1, h2]

/-- Claim C2, counterexample: the claim asserts the sort is stable on
ties, but `df.sort_values("date")` with the default `kind='quicksort'`
guarantees only a date-ascending permutation. For the concrete two-row
same-date input of the spec's scenario, the reversed output satisfies
that documented contract while breaking the claimed preservation of the
original relative order of same-date entries — so tie-order preservation
is not a property the code guarantees. -/
theorem cumulative_balance_stability_cex :
    SortedByDateOf
        [⟨5, "b", "", "Keluar", 30⟩, ⟨5, "a", "", "Masuk", 100⟩]
        [⟨5, "a", "", "Masuk", 100⟩, ⟨5, "b", "", "Keluar", 30⟩]
    ∧ ¬ ([(⟨5, "b", "", "Keluar", 30⟩ : Transaction), ⟨5, "a", "", "Masuk", 100⟩].filter
          (fun t => t.date == 5)
        = [(⟨5, "a", "", "Masuk", 100⟩ : Transaction), ⟨5, "b", "", "Keluar", 30⟩].filter
          (fun t => t.date == 5)) := by
  constructor
  · exact ⟨by decide, by decide⟩
  · decide

/-- Claim C2 (amended): `cumulative_balance` returns a date-ascending
permutation of the input (tie order among same-date entries
unspecified), pairing each row with the cumulative sum of signed amounts
(+amount for `Masuk`, -amount otherwise) in the sorted order; a single
Inflow of amount A yields the one point with balance A, and for the
same-day Inflow-A/Outflow-B pair the final balance is A - B under every
admissible tie order of the sort. -/
theorem cumulative_balance_amended (l : List Transaction) :
    SortedByDateOf ((cumulative_balance l).map Prod.fst) l
    ∧ ((cumulative_balance l).head?).elim True (fun p => p.2 = signedAmount p.1)
    ∧ List.Chain' (fun p q => q.2 = p.2 + signedAmount q.1) (cumulative_balance l)
    ∧ (∀ A : Int,
        cumulative_balance [⟨5, "", "", "Masuk", A⟩] = [(⟨5, "", "", "Masuk", A⟩, A)])
    ∧ (∀ A B : Int, ∀ s : List Transaction,
        SortedByDateOf s [⟨5, "", "", "Masuk", A⟩, ⟨5, "", "", "Keluar", B⟩] →
          ((balanceRows 0 s).map Prod.snd).getLast? = some (A - B)) := by
  refine ⟨⟨?_, ?_⟩, ?_, ?_, ?_, ?_⟩
  · rw [cumulative_balance, balanceRows_map_fst]
    exact sortByDate_perm l
  · rw [cumulative_balance, balanceRows_map_fst]
    exact sortByDate_sorted l
  · rw [cumulative_balance]
    cases h : sortByDate l with
    | nil => simp [balanceRows]
    | cons t ts => simp [balanceRows]
  · exact balanceRows_chain (sortByDate l) 0
  · intro A
    simp [cumulative_balance, sortByDate, insertByDate, balanceRows, signedAmount]
  · intro A B s hs
    have hlen : s.length = 2 := by simpa using hs.1.length_eq
    rcases s with _ | ⟨a, s'⟩
    · simp at hlen
    rcases s' with _ | ⟨b, s''⟩
    · simp at hlen
    rcases s'' with _ | ⟨c, s'''⟩
    · rcases perm_pair_cases hs.1 with ⟨rfl, rfl⟩ | ⟨rfl, rfl⟩
      · simp only [balanceRows, List.map_cons, List.map_nil, List.getLast?_cons_cons,
          signedAmount]
        simp [Option.some_inj]
        ring
      · simp only [balanceRows, List.map_cons, List.map_nil, List.getLast?_cons_cons,
          signedAmount]
        simp [Option.some_inj]
        ring
    · simp at hlen

/-- Witness for `cumulative_balance_amended`: the reversed tie order of
the same-day Inflow-100/Outflow-30 pair is an admissible sorted output
and still yields final balance 70. -/
theorem cumulative_balance_amended_witness :
    SortedByDateOf [⟨5, "", "", "Keluar", 30⟩, ⟨5, "", "", "Masuk", 100⟩]
        [⟨5, "", "", "Masuk", 100⟩, ⟨5, "", "", "Keluar", 30⟩]
    ∧ ((balanceRows 0
          [(⟨5, "", "", "Keluar", 30⟩ : Transaction), ⟨5, "", "", "Masuk", 100⟩]).map
        Prod.snd).getLast? = some (100 - 30) :=
  ⟨⟨by decide, by decide⟩,
   (cumulative_balance_amended []).2.2.2.2 100 30
      [⟨5, "", "", "Keluar", 30⟩, ⟨5, "", "", "Masuk", 100⟩] ⟨by decide, by decide⟩⟩

/-- Claim C3, counterexample: a persisted store whose `amount` cell holds
the numeric value -5 loads as the amount -5; `load_data` does not clamp
negative amounts to 0, so not every loaded amount is non-negative. -/
theorem load_data_nonneg_cex :
    ¬ ∀ t ∈ load_data [(⟨1, "a", "b", "Masuk", RawAmount.num (-5)⟩ : RawStoredRow)],
      0 ≤ t.amount := by
  decide

/-- Claim C3 (amended): `load_data` coerces every amount to an integer:
a non-numeric cell becomes 0 rather than raising, an integer-valued cell
is kept exactly as is — including negative values, which are not clamped
— and no row is dropped. -/
theorem load_data_amount_amended (d : Int) (ds cat ty : String) (n : Int)
    (rows : List RawStoredRow) :
    load_data [⟨d, ds, cat, ty, RawAmount.nonNumeric⟩] = [⟨d, ds, cat, ty, 0⟩]
    ∧ load_data [⟨d, ds, cat, ty, RawAmount.num ((n : ℚ))⟩] = [⟨d, ds, cat, ty, n⟩]
    ∧ (load_data rows).length = rows.length := by
  refine ⟨rfl, ?_, by simp [load_data]⟩
  simp [load_data, coerceAmount, ratTrunc_intCast]

/-- Claim C4, counterexample: deleting position 5 from a one-row
transaction set does not fail with `IndexOutOfRangeError`; the handler
filters on `csv_index != 5`, which matches nothing, and succeeds. -/
theorem delete_out_of_range_cex :
    deleteHandler [⟨1, "", "", "Masuk", 5⟩] 5
      ≠ Except.error DeleteError.indexOutOfRange := by
  decide

/-- Claim C4 (amended): for every position outside `[0, len-1]` the delete
handler succeeds and returns the transaction sequence unchanged — a
silent no-op rather than an `IndexOutOfRangeError` (the code has no
raising path; on an empty store the position widget itself fails on
`int(nan)` before any delete can run). -/
theorem delete_out_of_range_noop (l : List Transaction) (sel : Int)
    (h : sel < 0 ∨ (l.length : Int) ≤ sel) :
    deleteHandler l sel = Except.ok l := by
  unfold deleteHandler
  rw [idxFrom_filter_out sel l 0 (by push_cast; omega)]

/-- Witness for `delete_out_of_range_noop` at the one-row set and
position 7. -/
theorem delete_out_of_range_noop_witness :
    ((7 : Int) < 0 ∨ (([(⟨2, "x", "y", "Keluar", 10⟩ : Transaction)].length : Int) ≤ 7))
    ∧ deleteHandler [(⟨2, "x", "y", "Keluar", 10⟩ : Transaction)] 7
        = Except.ok [⟨2, "x", "y", "Keluar", 10⟩] :=
  ⟨by decide, delete_out_of_range_noop [⟨2, "x", "y", "Keluar", 10⟩] 7 (by decide)⟩

/-- Claim C5: for every non-empty transaction set exactly one of the
three advice lines is emitted, chosen in order: the negative-balance
warning when `saldo < 0`, else the emergency-buffer recommendation when
`saldo < 10%` of total inflow, else the healthy-cash-flow line. The
three membership conditions are mutually exclusive and exhaustive. -/
theorem advice_severity_rules (today w : Int) (l : List Transaction) (h : l ≠ []) :
    (Line.warnNegative ∈ (generate_insights today w l).2 ↔ (compute_summary l).2.2 < 0)
    ∧ (Line.lowBuffer ∈ (generate_insights today w l).2 ↔
        (¬ (compute_summary l).2.2 < 0 ∧
          (((compute_summary l).2.2 : ℚ) < ((compute_summary l).1 : ℚ) * (1 / 10))))
    ∧ (Line.healthy ∈ (generate_insights today w l).2 ↔
        (¬ (compute_summary l).2.2 < 0 ∧
          ¬ (((compute_summary l).2.2 : ℚ) < ((compute_summary l).1 : ℚ) * (1 / 10)))) := by
  have hsum : compute_summary l = (totalOfType "Masuk" l, totalOfType "Keluar" l,
      totalOfType "Masuk" l - totalOfType "Keluar" l) := rfl
  simp only [generate_insights, if_neg h, hsum, fixedActions]
  split_ifs <;> simp_all [List.mem_append, List.mem_cons]

/-- Witness for `advice_severity_rules` at a one-inflow set (the healthy
branch holds there). -/
theorem advice_severity_rules_witness :
    ([(⟨0, "a", "c", "Masuk", 100⟩ : Transaction)] ≠ [])
    ∧ ((Line.warnNegative ∈
          (generate_insights 0 30 [(⟨0, "a", "c", "Masuk", 100⟩ : Transaction)]).2 ↔
        (compute_summary [(⟨0, "a", "c", "Masuk", 100⟩ : Transaction)]).2.2 < 0)
      ∧ (Line.lowBuffer ∈
            (generate_insights 0 30 [(⟨0, "a", "c", "Masuk", 100⟩ : Transaction)]).2 ↔
          (¬ (compute_summary [(⟨0, "a", "c", "Masuk", 100⟩ : Transaction)]).2.2 < 0 ∧
            (((compute_summary [(⟨0, "a", "c", "Masuk", 100⟩ : Transaction)]).2.2 : ℚ) <
              ((compute_summary [(⟨0, "a", "c", "Masuk", 100⟩ : Transaction)]).1 : ℚ) * (1 / 10))))
      ∧ (Line.healthy ∈
            (generate_insights 0 30 [(⟨0, "a", "c", "Masuk", 100⟩ : Transaction)]).2 ↔
          (¬ (compute_summary [(⟨0, "a", "c", "Masuk", 100⟩ : Transaction)]).2.2 < 0 ∧
            ¬ (((compute_summary [(⟨0, "a", "c", "Masuk", 100⟩ : Transaction)]).2.2 : ℚ) <
              ((compute_summary [(⟨0, "a", "c", "Masuk", 100⟩ : Transaction)]).1 : ℚ) * (1 / 10))))) :=
  ⟨by decide, advice_severity_rules 0 30 [⟨0, "a", "c", "Masuk", 100⟩] (by decide)⟩

/-- Claim C6: for every non-empty transaction set the
consolidate-small-expenses line is present exactly when the number of
`Keluar` rows with amount strictly below 50000 exceeds 5. -/
theorem small_expense_rule (today w : Int) (l : List Transaction) (h : l ≠ []) :
    Line.consolidateSmall ∈ (generate_insights today w l).2 ↔
      5 < ((l.filter (fun t => t.type == "Keluar")).filter
            (fun t => t.amount < 50000)).length := by
  simp only [generate_insights, if_neg h, fixedActions]
  split_ifs <;> simp_all [List.mem_append, List.mem_cons]

/-- Witness for `small_expense_rule` at a set of six small outflows (the
line is present there). -/
theorem small_expense_rule_witness :
    (smallSixList ≠ []) ∧
      (Line.consolidateSmall ∈ (generate_insights 0 30 smallSixList).2 ↔
        5 < ((smallSixList.filter (fun t => t.type == "Keluar")).filter
              (fun t => t.amount < 50000)).length) :=
  ⟨by decide, small_expense_rule 0 30 smallSixList (by decide)⟩

/-- Claim C9, counterexample: on the empty transaction set
`generate_insights` returns `(["Belum ada data..."], [])`, so the
recommendation/action list does not end with the three fixed action
lines. -/
theorem fixed_actions_cex :
    ¬ List.IsSuffix fixedActions ((generate_insights 0 30 ([] : List Transaction)).2) := by
  decide

/-- Claim C9 (amended): for every non-empty transaction set the
recommendation/action list ends with the three fixed generic action
lines; on the empty set the early return yields an empty list instead. -/
theorem fixed_actions_amended (today w : Int) (l : List Transaction) (h : l ≠ []) :
    List.IsSuffix fixedActions ((generate_insights today w l).2) := by
  simp only [generate_insights, if_neg h]
  exact List.suffix_append _ _

/-- Witness for `fixed_actions_amended` at a one-outflow set. -/
theorem fixed_actions_amended_witness :
    ([(⟨1, "b", "k", "Keluar", 20⟩ : Transaction)] ≠ [])
    ∧ List.IsSuffix fixedActions
        ((generate_insights 0 30 [(⟨1, "b", "k", "Keluar", 20⟩ : Transaction)]).2) :=
  ⟨by decide, fixed_actions_amended 0 30 [⟨1, "b", "k", "Keluar", 20⟩] (by decide)⟩

/-- Claim C7, counterexample: an import file whose parsed columns are
`description, category, type, amount` (no `date` column) does not fail
with the schema-validation message — the date normalization runs before
the schema check and raises the generic import error instead. -/
theorem import_schema_cex :
    ¬ (importUpload [] (⟨["description", "category", "type", "amount"], []⟩ : RawTable)
        = Except.error ImportError.schemaError) := by
  decide

/-- Claim C7 (amended): for every import file whose parsed columns do not
include all required columns, the import fails and the existing store is
left unchanged with no partial merge; the failure is the
`SchemaValidationError` message exactly when the file does have a `date`
column, and the generic date-normalization error when `date` itself is
the missing column. -/
theorem import_schema_amended (df : List Transaction) (t : RawTable)
    (h : ¬ ∀ c ∈ requiredCols, c ∈ t.cols) :
    ("date" ∈ t.cols → importUpload df t = Except.error ImportError.schemaError)
    ∧ ("date" ∉ t.cols → importUpload df t = Except.error ImportError.dateKeyError)
    ∧ importAndSave df t = df := by
  by_cases hd : "date" ∈ t.cols
  · have hall : ¬ (requiredCols.all (fun c => c ∈ t.cols) = true) := by
      simp only [List.all_eq_true, decide_eq_true_eq]
      exact h
    refine ⟨fun _ => ?_, fun hnd => absurd hd hnd, ?_⟩
    · simp [importUpload, hd, hall]
    · simp [importAndSave, importUpload, hd, hall]
  · refine ⟨fun hdd => absurd hdd hd, fun _ => ?_, ?_⟩
    · simp [importUpload, hd]
    · simp [importAndSave, importUpload, hd]

/-- Witness for `import_schema_amended` at a file having `date` but
missing `amount`: the schema-validation error is produced. -/
theorem import_schema_amended_witness :
    (¬ ∀ c ∈ requiredCols,
        c ∈ (⟨["date", "description", "category", "type"], []⟩ : RawTable).cols)
    ∧ importUpload [] (⟨["date", "description", "category", "type"], []⟩ : RawTable)
        = Except.error ImportError.schemaError :=
  ⟨by decide,
   (import_schema_amended [] ⟨["date", "description", "category", "type"], []⟩
      (by decide)).1 (by decide)⟩

/-- Claim C8: exporting a transaction sequence and importing the result
back merges exactly the original sequence (dates and integer amounts
round-trip); an extra non-required column added to the exported file is
dropped by the import, which keeps only the five required fields. -/
theorem export_import_round_trip (df T : List Transaction) (c v : String) :
    importUpload df (to_excel_bytes T) = Except.ok (df ++ T)
    ∧ importUpload df (withExtraCol (to_excel_bytes T) c v) = Except.ok (df ++ T) := by
  constructor
  · have hd : "date" ∈ (to_excel_bytes T).cols := by
      simp [to_excel_bytes, requiredCols]
    have hall : (requiredCols.all (fun c' => c' ∈ (to_excel_bytes T).cols)) = true := by
      simp only [List.all_eq_true, decide_eq_true_eq, to_excel_bytes]
      intro c' hc'
      exact hc'
    unfold importUpload
    rw [if_pos hd, if_pos hall, roundTripRows]
  · have hd : "date" ∈ (withExtraCol (to_excel_bytes T) c v).cols := by
      simp [withExtraCol, to_excel_bytes, requiredCols]
    have hall : (requiredCols.all
        (fun c' => c' ∈ (withExtraCol (to_excel_bytes T) c v).cols)) = true := by
      simp only [List.all_eq_true, decide_eq_true_eq, withExtraCol]
      intro c' hc'
      exact List.mem_append_left _ hc'
    unfold importUpload
    rw [if_pos hd, if_pos hall, roundTripRowsExtra]

/-- Claim C10: on every non-empty ledger whose rows are all typed `Masuk`
or `Keluar`, the final balance of `cumulative_balance` equals the
`saldo` (total inflow minus total outflow) of `compute_summary`. -/
theorem final_balance_eq_saldo (l : List Transaction) (h : l ≠ [])
    (htypes : ∀ t ∈ l, t.type = "Masuk" ∨ t.type = "Keluar") :
    ((cumulative_balance l).map Prod.snd).getLast? = some ((compute_summary l).2.2) := by
  have hperm := sortByDate_perm l
  have hne : sortByDate l ≠ [] := by
    intro hnil
    rw [hnil] at hperm
    exact h (hperm.symm.eq_nil)
  rw [cumulative_balance, balanceRows_getLast_snd (sortByDate l) 0 hne]
  have hsum : ((sortByDate l).map signedAmount).sum = (l.map signedAmount).sum :=
    (hperm.map signedAmount).sum_eq
  rw [hsum, sum_signed_eq l htypes]
  simp [compute_summary]

/-- Witness for `final_balance_eq_saldo` at a two-row ledger with final
balance 70. -/
theorem final_balance_eq_saldo_witness :
    (balTwoList ≠ [] ∧ ∀ t ∈ balTwoList, t.type = "Masuk" ∨ t.type = "Keluar")
    ∧ ((cumulative_balance balTwoList).map Prod.snd).getLast?
        = some ((compute_summary balTwoList).2.2) :=
  ⟨⟨by decide, by decide⟩,
   final_balance_eq_saldo balTwoList (by decide) (by decide)⟩

end MoneyBoard
